import Mathlib

/-!
# Peer-review application: request handlers and the review submission form

A shallow embedding of

* `server/controllers/reviewController.js` (`getReview`, `addReview`),
* `server/controllers/accountController.js` (`getAccount`),
* `client/src/components/AddReview/AddReview-container.jsx`
  (`constructor`, `handleDateChange`, `handleSubmit`).

A handler is a function from its collaborators and the request to the list of
observable events it produces, in program order: console output, calls to the
collaborator, and responses written to `res`.  The awaited collaborator call is
abstracted by its outcome (`Outcome`).  The form container is a transition
system over the component state, a heap of objects (so that in-place mutation
and copying can be told apart) and the list of requests in flight.
-/

set_option autoImplicit false

namespace PeerReview

/-! ## JavaScript values -/

/-- JavaScript values that travel through the handlers: JSON data, plus `big`,
an object with a `toNumber` method (a ledger big number), abstracted by the
outcome of calling that method: `.ok v` when it returns `v`, `.error e` when it
throws `e`.  Numbers are integers; fractional numbers are not represented. -/
inductive JsVal where
  | undefined : JsVal
  | null : JsVal
  | bool (b : Bool) : JsVal
  | num (n : Int) : JsVal
  | str (s : String) : JsVal
  | arr (items : List JsVal) : JsVal
  | obj (fields : List (String × JsVal)) : JsVal
  | big (toNumber : Except JsVal JsVal) : JsVal

instance : Inhabited JsVal := ⟨JsVal.undefined⟩

/-- The `TypeError` the runtime throws, as a value. -/
def typeError (msg : String) : JsVal :=
  .obj [("name", .str "TypeError"), ("message", .str msg)]

/-- The property `v[i]` of a value that is neither `undefined` nor `null`, for
a numeric literal `i`: the element of an array, the property named by the
decimal digits of `i` of an object, the one-character string of a string (by
code point), and `undefined` wherever the property is absent. -/
def readIndex (v : JsVal) (i : Nat) : JsVal :=
  match v with
  | .arr items => items.getD i .undefined
  | .obj fields => (fields.lookup (toString i)).getD .undefined
  | .str s =>
    match s.toList.get? i with
    | some c => .str (String.singleton c)
    | none => .undefined
  | _ => .undefined

/-- Indexed read `v[i]`: throws on `undefined` and `null`, and reads the
property of every other value. -/
def getIndex (v : JsVal) (i : Nat) : Except JsVal JsVal :=
  match v with
  | .undefined => .error (typeError "Cannot read properties of undefined")
  | .null => .error (typeError "Cannot read properties of null")
  | _ => .ok (readIndex v i)

/-- Named read `v.name` for a name that is not an array index: throws on
`undefined` and `null`, reads the property of an object, and is `undefined` on
every other value. -/
def getField (v : JsVal) (name : String) : Except JsVal JsVal :=
  match v with
  | .undefined => .error (typeError "Cannot read properties of undefined")
  | .null => .error (typeError "Cannot read properties of null")
  | .obj fields => .ok ((fields.lookup name).getD .undefined)
  | _ => .ok .undefined

/-- The call `v.toNumber()`: reading the method throws on `undefined` and
`null`; a value without a callable `toNumber` throws "not a function"; a `big`
returns or throws as its method does. -/
def callToNumber (v : JsVal) : Except JsVal JsVal :=
  match v with
  | .undefined => .error (typeError "Cannot read properties of undefined")
  | .null => .error (typeError "Cannot read properties of null")
  | .big toNumber => toNumber
  | _ => .error (typeError "toNumber is not a function")

/-- A converted element in front of the converted rest of an array. -/
def consStr (s : String) (tail : Except JsVal (List String)) : Except JsVal (List String) :=
  match tail with
  | .ok parts => .ok (s :: parts)
  | .error e => .error e

mutual
/-- The string conversion of a value inside a template literal.  Primitives
convert to their text (numbers are integers, printed in decimal).  An array
joins the conversions of its elements with commas.  An object without an own
`toString` property converts through `Object.prototype.toString`; an own
`toString` property shadows it, and since no value here is callable neither it
nor `valueOf` yields a primitive, so the conversion throws a `TypeError`.  A
`big` is converted as the object literal holding only a `toNumber` method. -/
def toStr : JsVal → Except JsVal String
  | .undefined => .ok "undefined"
  | .null => .ok "null"
  | .bool b => .ok (if b then "true" else "false")
  | .num n => .ok (toString n)
  | .str s => .ok s
  | .arr items =>
    match elementStrs items with
    | .ok parts => .ok (",".intercalate parts)
    | .error e => .error e
  | .obj fields =>
    if (fields.lookup "toString").isSome then
      .error (typeError "Cannot convert object to primitive value")
    else .ok "[object Object]"
  | .big _ => .ok "[object Object]"
termination_by structural v => v
/-- The conversions of the elements of an array, as `join` takes them:
`undefined` and `null` give the empty string, the first element whose
conversion throws ends the join. -/
def elementStrs : List JsVal → Except JsVal (List String)
  | [] => .ok []
  | .undefined :: rest => consStr "" (elementStrs rest)
  | .null :: rest => consStr "" (elementStrs rest)
  | x :: rest =>
    match toStr x with
    | .ok s => consStr s (elementStrs rest)
    | .error e => .error e
termination_by structural l => l
end

/-- Truthiness of a value in a condition: `undefined`, `null`, `false`, `0`
and the empty string are falsy, everything else is truthy. -/
def truthy (v : JsVal) : Bool :=
  match v with
  | .undefined => false
  | .null => false
  | .bool b => b
  | .num n => n != 0
  | .str s => s != ""
  | _ => true

/-! ## Collaborators, requests and events -/

/-- How an asynchronous collaborator call ends: its promise resolves with a
value, rejects with a value, the call itself throws before returning a
promise, or the promise never settles. -/
inductive Outcome where
  | resolves (v : JsVal) : Outcome
  | rejects (e : JsVal) : Outcome
  | throws (e : JsVal) : Outcome
  | pending : Outcome

/-- The ledger connection (`../connection/reviewConnection`). -/
structure Connection where
  getReview : JsVal → JsVal → Outcome
  addReview : JsVal → JsVal → Outcome

/-- The document-store model `Scholar` (`../models/Scholar`). -/
structure ScholarModel where
  findById : JsVal → Outcome

/-- The parts of the request the handlers read. -/
structure Req where
  params : List (String × JsVal)
  body : JsVal

/-- The read `req.params.name`. -/
def Req.param (req : Req) (name : String) : JsVal :=
  (req.params.lookup name).getD .undefined

/-- Which method of `res` wrote the body. -/
inductive SendKind where
  | send : SendKind
  | json : SendKind

/-- Observable events of a handler run. -/
inductive Event where
  | log (args : List JsVal) : Event
  | getReviewCall (addr reviewIndex : JsVal) : Event
  | addReviewCall (author review : JsVal) : Event
  | findByIdCall (address : JsVal) : Event
  | response (status : Nat) (kind : SendKind) (body : JsVal) : Event

/-- A response as the client receives it. -/
structure Response where
  status : Nat
  kind : SendKind
  body : JsVal

/-- The status of a response written without a call to `res.status`. -/
def defaultStatus : Nat := 200

/-- The responses among the events, in order. -/
def responses (events : List Event) : List Response :=
  events.filterMap fun ev =>
    match ev with
    | .response status kind body => some ⟨status, kind, body⟩
    | _ => none

/-- The arguments of the calls to `connection.addReview` among the events. -/
def addReviewCalls (events : List Event) : List (JsVal × JsVal) :=
  events.filterMap fun ev =>
    match ev with
    | .addReviewCall author review => some (author, review)
    | _ => none

/-- The arguments of the calls to `Scholar.findById` among the events. -/
def findByIdCalls (events : List Event) : List JsVal :=
  events.filterMap fun ev =>
    match ev with
    | .findByIdCall address => some address
    | _ => none

/-! ## `reviewController.js` -/

namespace reviewController

/-- The object literal of `getReview` (lines 9-17), its fields evaluated in
source order; the first read or call that throws ends the evaluation. -/
def buildResponse (review : JsVal) : Except JsVal JsVal := do
  let journalId ← getIndex review 0
  let manuscriptId ← getIndex review 1
  let manuscripthash ← getIndex review 2
  let timestamp ← getIndex review 3 >>= callToNumber
  let recommendation ← getIndex review 4 >>= callToNumber
  let verified ← getIndex review 5
  let vouchers ← getIndex review 6
  pure (.obj [("journalId", journalId), ("manuscriptId", manuscriptId),
    ("manuscripthash", manuscripthash), ("timestamp", timestamp),
    ("recommendation", recommendation), ("verified", verified),
    ("vouchers", vouchers)])

/-- The `catch` block of `getReview` (lines 19-22). -/
def getReviewCatch (e : JsVal) : List Event :=
  [.log [e], .response 404 .json (.obj [("message", .str "Review not found")])]

/-- The handler `exports.getReview`. -/
def getReview (connection : Connection) (req : Req) : List Event :=
  let addr := req.param "addr"
  let reviewIndex := req.param "reviewIndex"
  .getReviewCall addr reviewIndex ::
    match connection.getReview addr reviewIndex with
    | .pending => []
    | .throws e => getReviewCatch e
    | .rejects e => getReviewCatch e
    | .resolves review =>
      .log [review] ::
        match buildResponse review with
        | .ok response => [.response defaultStatus .send response]
        | .error e => getReviewCatch e

/-- The handler `exports.addReview`.  The template literal of line 33 reads
`result.tx` and converts it to a string inside the `try`, so a throw of either
step is answered by the `catch` block. -/
def addReview (connection : Connection) (req : Req) : List Event :=
  let review := req.body
  let author := req.param "addr"
  [.log [.str "IN ADD REVIEW"], .log [req.body], .addReviewCall author review] ++
    match connection.addReview author review with
    | .pending => []
    | .throws e => [.response 500 .json (.obj [("error", e)])]
    | .rejects e => [.response 500 .json (.obj [("error", e)])]
    | .resolves result =>
      match getField result "tx" >>= toStr with
      | .ok tx => [.log [.str ("Tx hash is " ++ tx)], .response 200 .send result]
      | .error e => [.response 500 .json (.obj [("error", e)])]

end reviewController

/-! ## `accountController.js` -/

namespace accountController

/-- The handler `exports.getAccount`: the `then` callback runs when the lookup
resolves, the chained `catch` callback when the lookup rejects or the `then`
callback throws, as it does when the template literal of line 12 cannot
convert `scholar` to a string; a call that throws leaves the handler before any
callback is attached. -/
def getAccount (Scholar : ScholarModel) (req : Req) : List Event :=
  let address := req.param "address"
  [.log [.str "Address is"], .log [address], .findByIdCall address] ++
    match Scholar.findById address with
    | .pending => []
    | .throws _ => []
    | .rejects err => [.response 500 .send err]
    | .resolves scholar =>
      match toStr scholar with
      | .error err => [.response 500 .send err]
      | .ok text =>
        .log [.str ("Returning the scholar: " ++ text)] ::
          if truthy scholar then [.response 200 .json scholar]
          else [.response 404 .send (.str "No scholar found")]

end accountController

/-! ## `AddReview-container.jsx` -/

namespace AddReviewContainer

/-- The own properties of an object, in insertion order. -/
abbrev Obj := List (String × JsVal)

/-- The assignment `o.name = v` on the properties of `o`: an existing property
keeps its place and takes the new value, a new property is added at the end. -/
def setProp : Obj → String → JsVal → Obj
  | [], name, v => [(name, v)]
  | (k, w) :: rest, name, v =>
    if k = name then (k, v) :: rest else (k, w) :: setProp rest name v

/-- The component: the heap of objects it can reach (an object reference is a
position in the heap), the three fields of `this.state`, the data of the
add-review requests issued and not yet settled, and the console output. -/
structure Component where
  heap : List Obj
  review : Nat
  isLoading : Bool
  account : String
  inFlight : List JsVal
  console : List (List JsVal)

/-- The object a reference points to. -/
def deref (heap : List Obj) (ref : Nat) : Obj := heap.getD ref []

/-- The object literal or spread copy `{ ...o }`: a new object with the
given properties, at a fresh reference. -/
def alloc (heap : List Obj) (o : Obj) : List Obj × Nat := (heap ++ [o], heap.length)

/-- The assignment `ref.name = v`, written through the reference. -/
def writeProp (heap : List Obj) (ref : Nat) (name : String) (v : JsVal) : List Obj :=
  heap.set ref (setProp (deref heap ref) name v)

/-- The state after `constructor(props)`; `now` is the value of `new Date()`. -/
def constructor (now : JsVal) : Component where
  heap := [[("journalId", .str ""), ("manuscriptId", .str ""), ("manuscriptHash", .str ""),
    ("timestamp", now), ("recommendation", .null)]]
  review := 0
  isLoading := false
  account := "0xb454b9e3fB8307AE28d2E0243c5e99A47236a2e0"
  inFlight := []
  console := []

/-- The method `handleDateChange`: copy the review into a new object, assign
its `timestamp`, and make the copy the state's review. -/
def handleDateChange (c : Component) (date : JsVal) : Component :=
  let (heap1, tempReview) := alloc c.heap (deref c.heap c.review)
  let heap2 := writeProp heap1 tempReview "timestamp" date
  { c with heap := heap2, review := tempReview }

/-- The method `handleSubmit`, up to its return: log the data, set the loading
flag, and issue the add-review request (`addReview` of `utils/review`, which
returns a promise), whose callbacks run in `settle`. -/
def handleSubmit (c : Component) (data : JsVal) : Component :=
  { c with
    console := c.console ++ [[data]]
    isLoading := true
    inFlight := c.inFlight ++ [data] }

/-- The callbacks attached in `handleSubmit`, run when the request at position
`i` of the requests in flight settles: `.ok res` runs the `then` callback,
`.error err` runs the `catch` callback. -/
def settle (c : Component) (i : Nat) (result : Except JsVal JsVal) : Component :=
  if i < c.inFlight.length then
    match result with
    | .ok res =>
      { c with
        inFlight := c.inFlight.eraseIdx i
        console := c.console ++ [[res]]
        isLoading := false }
    | .error err =>
      { c with
        inFlight := c.inFlight.eraseIdx i
        console := c.console ++ [[err]] }
  else c

end AddReviewContainer

/-! ## Vocabulary of the statements -/

/-- The largest safe integer, `Number.MAX_SAFE_INTEGER`. -/
def maxSafeInteger : Int := 2 ^ 53 - 1

/-- Whether `v` lies in the safe-integer range. -/
def isSafeInteger (v : Int) : Bool := decide (-maxSafeInteger ≤ v) && decide (v ≤ maxSafeInteger)

/-- Modelled from the spec: the `toNumber` of the big numbers the connection
returns, whose library is not in the repository.  A ledger big integer holding
`v` returns `v` itself when `v` is a safe integer ("converted losslessly within
safe-integer range"), and `beyond v` (a rounded number or a thrown error,
depending on the library) otherwise. -/
def ledgerBig (beyond : Int → Except JsVal JsVal) (v : Int) : JsVal :=
  .big (if isSafeInteger v then .ok (.num v) else beyond v)

/-- Whether element `i` of `v` has a `toNumber` that returns without throwing. -/
def toNumberReturns (v : JsVal) (i : Nat) : Bool :=
  match getIndex v i >>= callToNumber with
  | .ok _ => true
  | .error _ => false

/-- The body of the not-found response. -/
def reviewNotFound : JsVal := .obj [("message", .str "Review not found")]

/-! ## Scenarios -/

/-- The ledger connection of the scenario `GET /reviews/0xABC/0`. -/
def scenarioConnection : Connection where
  getReview := fun _ _ =>
    .resolves (.arr [.str "J1", .str "M1", .str "0xHASH", .big (.ok (.num 1700000000)),
      .big (.ok (.num 1)), .bool true, .arr []])
  addReview := fun _ _ => .resolves (.obj [("tx", .str "0x9f3c")])

/-- The request `GET /reviews/0xABC/0`. -/
def scenarioReq : Req where
  params := [("addr", .str "0xABC"), ("reviewIndex", .str "0")]
  body := .undefined

/-- A ledger connection whose calls reject with the given error. -/
def rejectingConnection (e : JsVal) : Connection where
  getReview := fun _ _ => .rejects e
  addReview := fun _ _ => .rejects e

/-- The request `POST /reviews/0xABC` with a review body. -/
def scenarioPost : Req where
  params := [("addr", .str "0xABC")]
  body := .obj [("journalId", .str "J1"), ("manuscriptId", .str "M1"),
    ("manuscriptHash", .str "0xHASH"), ("timestamp", .num 1700000000),
    ("recommendation", .num 1)]

/-- The request `GET /accounts/0xABC`. -/
def scenarioAccountReq : Req where
  params := [("address", .str "0xABC")]
  body := .undefined

/-- A scholar record. -/
def scenarioScholar : JsVal := .obj [("_id", .str "0xABC"), ("name", .str "Max Planck")]

/-- A transaction result whose `tx` has an own `toString` property that is
not a function. -/
def unprintableTxResult : JsVal := .obj [("tx", .obj [("toString", .num 1)])]

/-- A ledger connection whose `addReview` resolves to `unprintableTxResult`. -/
def unprintableTxConnection : Connection where
  getReview := fun _ _ => .pending
  addReview := fun _ _ => .resolves unprintableTxResult

/-- A scholar record with an own `toString` property that is not a function. -/
def unprintableScholar : JsVal := .obj [("toString", .str "x")]

/-- The error of a string conversion that finds no primitive. -/
def cannotConvert : JsVal := typeError "Cannot convert object to primitive value"

/-! ## Helper lemmas -/

theorem toNumberReturns_arr (items : List JsVal) (i : Nat) :
    toNumberReturns (.arr items) i =
      match callToNumber (items.getD i .undefined) with
      | .ok _ => true
      | .error _ => false := rfl

theorem buildResponse_eq (review : JsVal) (hu : review ≠ .undefined) (hn : review ≠ .null) :
    reviewController.buildResponse review =
      (do
        let timestamp ← callToNumber (readIndex review 3)
        let recommendation ← callToNumber (readIndex review 4)
        pure (.obj [("journalId", readIndex review 0), ("manuscriptId", readIndex review 1),
          ("manuscripthash", readIndex review 2), ("timestamp", timestamp),
          ("recommendation", recommendation), ("verified", readIndex review 5),
          ("vouchers", readIndex review 6)])) := by
  cases review <;> first | exact absurd rfl hu | exact absurd rfl hn | rfl

theorem buildResponse_isOk_iff (review : JsVal) :
    (∃ response, reviewController.buildResponse review = .ok response) ↔
      (toNumberReturns review 3 = true ∧ toNumberReturns review 4 = true) := by
  by_cases hu : review = .undefined
  · subst hu
    simp [reviewController.buildResponse, toNumberReturns, getIndex, bind, Except.bind]
  by_cases hn : review = .null
  · subst hn
    simp [reviewController.buildResponse, toNumberReturns, getIndex, bind, Except.bind]
  rw [buildResponse_eq review hu hn]
  have h3 : getIndex review 3 = .ok (readIndex review 3) := by
    cases review <;> first | exact absurd rfl hu | exact absurd rfl hn | rfl
  have h4 : getIndex review 4 = .ok (readIndex review 4) := by
    cases review <;> first | exact absurd rfl hu | exact absurd rfl hn | rfl
  simp only [toNumberReturns, h3, h4, bind, Except.bind, pure, Except.pure]
  cases callToNumber (readIndex review 3) <;> cases callToNumber (readIndex review 4) <;> simp

theorem lookup_setProp_same (o : AddReviewContainer.Obj) (name : String) (v : JsVal) :
    (AddReviewContainer.setProp o name v).lookup name = some v := by
  induction o with
  | nil => simp [AddReviewContainer.setProp, List.lookup]
  | cons p rest ih =>
    obtain ⟨k, w⟩ := p
    by_cases hk : k = name
    · simp [AddReviewContainer.setProp, hk, List.lookup]
    · have hne : (name == k) = false := by simpa using fun h => hk h.symm
      simp [AddReviewContainer.setProp, hk, List.lookup, hne, ih]

theorem lookup_setProp_other (o : AddReviewContainer.Obj) (name other : String) (v : JsVal)
    (hne : other ≠ name) :
    (AddReviewContainer.setProp o name v).lookup other = o.lookup other := by
  induction o with
  | nil =>
    have h : (other == name) = false := by simpa using hne
    simp [AddReviewContainer.setProp, List.lookup, h]
  | cons p rest ih =>
    obtain ⟨k, w⟩ := p
    by_cases hk : k = name
    · subst hk
      have h : (other == k) = false := by simpa using hne
      simp [AddReviewContainer.setProp, List.lookup, h]
    · simp only [AddReviewContainer.setProp, hk, if_false, List.lookup, ih]

/-! ## The read path: `getReview` -/

/-- Claim C1: when the connection resolves to a 7-element tuple whose elements 3
and 4 have a `toNumber` that returns, `getReview` sends exactly one response,
with the default status 200, whose body carries each positional element under
its field name unchanged and the two returned numbers as `timestamp` and
`recommendation`; for a ledger big integer in the safe range that number is the
ledger value itself. -/
theorem C1_getReview_reshapes_tuple (connection : Connection) (req : Req)
    (t0 t1 t2 t3 t4 t5 t6 a b : JsVal)
    (hconn : connection.getReview (req.param "addr") (req.param "reviewIndex") =
      .resolves (.arr [t0, t1, t2, t3, t4, t5, t6]))
    (h3 : callToNumber t3 = .ok a) (h4 : callToNumber t4 = .ok b) :
    responses (reviewController.getReview connection req) =
        [⟨200, .send, .obj [("journalId", t0), ("manuscriptId", t1), ("manuscripthash", t2),
          ("timestamp", a), ("recommendation", b), ("verified", t5), ("vouchers", t6)]⟩] ∧
      (∀ beyond v, isSafeInteger v = true → t3 = ledgerBig beyond v → a = .num v) ∧
      (∀ beyond v, isSafeInteger v = true → t4 = ledgerBig beyond v → b = .num v) := by
  refine ⟨?_, ?_, ?_⟩
  · have hb : reviewController.buildResponse (.arr [t0, t1, t2, t3, t4, t5, t6]) =
        .ok (.obj [("journalId", t0), ("manuscriptId", t1), ("manuscripthash", t2),
          ("timestamp", a), ("recommendation", b), ("verified", t5), ("vouchers", t6)]) := by
      rw [buildResponse_eq _ (by simp) (by simp)]
      simp [readIndex, h3, h4, bind, Except.bind, pure, Except.pure]
    simp [reviewController.getReview, hconn, hb, responses, defaultStatus]
  · intro beyond v hv ht
    subst ht
    simp [ledgerBig, callToNumber, hv] at h3
    exact h3.symm
  · intro beyond v hv ht
    subst ht
    simp [ledgerBig, callToNumber, hv] at h4
    exact h4.symm

/-- The scenario of claim C1: the tuple `["J1","M1","0xHASH",1700000000,1,true,[]]`
gives status 200 and the named record. -/
theorem C1_getReview_reshapes_tuple_witness :
    responses (reviewController.getReview scenarioConnection scenarioReq) =
      [⟨200, .send, .obj [("journalId", .str "J1"), ("manuscriptId", .str "M1"),
        ("manuscripthash", .str "0xHASH"), ("timestamp", .num 1700000000),
        ("recommendation", .num 1), ("verified", .bool true), ("vouchers", .arr [])]⟩] :=
  (C1_getReview_reshapes_tuple scenarioConnection scenarioReq (.str "J1") (.str "M1")
    (.str "0xHASH") (.big (.ok (.num 1700000000))) (.big (.ok (.num 1))) (.bool true) (.arr [])
    (.num 1700000000) (.num 1) rfl rfl rfl).1

/-- Claim C2: when the connection's `getReview` fails, by a rejected promise or
a thrown value `e`, the handler sends exactly one response, status 404 with the
JSON body `message: "Review not found"`, whatever `e` is. -/
theorem C2_getReview_failure_is_404 (connection : Connection) (req : Req) (e : JsVal)
    (hfail : connection.getReview (req.param "addr") (req.param "reviewIndex") = .rejects e ∨
      connection.getReview (req.param "addr") (req.param "reviewIndex") = .throws e) :
    responses (reviewController.getReview connection req) = [⟨404, .json, reviewNotFound⟩] := by
  rcases hfail with h | h <;>
    simp [reviewController.getReview, h, reviewController.getReviewCatch, responses,
      reviewNotFound]

/-- A rejected read of claim C2 answers 404. -/
theorem C2_getReview_failure_is_404_witness :
    responses (reviewController.getReview (rejectingConnection (.str "invalid address"))
      scenarioReq) = [⟨404, .json, reviewNotFound⟩] :=
  C2_getReview_failure_is_404 (rejectingConnection (.str "invalid address")) scenarioReq
    (.str "invalid address") (Or.inl rfl)

/-- Claim C10: `getReview` answers 200 exactly when the connection resolves to a
value whose elements 3 and 4 both have a `toNumber` that returns; when the call
settles any other way it answers 404 with `message: "Review not found"` and
nothing else; it never sends more than one response nor a status other than 200
or 404.  `undefined`, tuples shorter than 5 and tuples whose element 3 or 4 has
no `toNumber` are among the 404 cases. -/
theorem C10_getReview_status_decided_by_toNumber (connection : Connection) (req : Req) :
    ((∃ r ∈ responses (reviewController.getReview connection req), r.status = 200) ↔
        ∃ v, connection.getReview (req.param "addr") (req.param "reviewIndex") = .resolves v ∧
          toNumberReturns v 3 = true ∧ toNumberReturns v 4 = true) ∧
      (connection.getReview (req.param "addr") (req.param "reviewIndex") ≠ .pending →
        (¬ ∃ v, connection.getReview (req.param "addr") (req.param "reviewIndex") = .resolves v ∧
          toNumberReturns v 3 = true ∧ toNumberReturns v 4 = true) →
        responses (reviewController.getReview connection req) = [⟨404, .json, reviewNotFound⟩]) ∧
      (∀ r ∈ responses (reviewController.getReview connection req),
        r.status = 200 ∨ r.status = 404) ∧
      (responses (reviewController.getReview connection req)).length ≤ 1 ∧
      toNumberReturns .undefined 3 = false ∧
      (∀ items : List JsVal, items.length < 5 → toNumberReturns (.arr items) 4 = false) ∧
      (∀ items : List JsVal, (∀ r, items.getD 3 .undefined ≠ .big r) →
        toNumberReturns (.arr items) 3 = false) ∧
      (∀ items : List JsVal, (∀ r, items.getD 4 .undefined ≠ .big r) →
        toNumberReturns (.arr items) 4 = false) := by
  have hno : ∀ x : JsVal, (∀ r, x ≠ .big r) → ∃ e, callToNumber x = .error e := by
    intro x hx
    cases x with
    | big r => exact absurd rfl (hx r)
    | _ => exact ⟨_, rfl⟩
  refine ⟨?_, ?_, ?_, ?_, rfl, ?_, ?_, ?_⟩
  · cases hout : connection.getReview (req.param "addr") (req.param "reviewIndex") with
    | resolves v =>
      have hiff := buildResponse_isOk_iff v
      cases hb : reviewController.buildResponse v with
      | ok response =>
        have h34 := hiff.mp ⟨response, hb⟩
        simp [reviewController.getReview, hout, hb, responses, defaultStatus, h34]
      | error e =>
        have h34 : ¬ (toNumberReturns v 3 = true ∧ toNumberReturns v 4 = true) := by
          intro h
          obtain ⟨response, hr⟩ := hiff.mpr h
          rw [hb] at hr
          cases hr
        simp [reviewController.getReview, hout, hb, responses, reviewController.getReviewCatch]
        intro h3
        cases h4 : toNumberReturns v 4 with
        | false => rfl
        | true => exact absurd ⟨h3, h4⟩ h34
    | rejects e =>
      simp [reviewController.getReview, hout, responses, reviewController.getReviewCatch]
    | throws e =>
      simp [reviewController.getReview, hout, responses, reviewController.getReviewCatch]
    | pending => simp [reviewController.getReview, hout, responses]
  · intro hpend hbad
    cases hout : connection.getReview (req.param "addr") (req.param "reviewIndex") with
    | resolves v =>
      cases hb : reviewController.buildResponse v with
      | ok response =>
        exact absurd ⟨v, hout, (buildResponse_isOk_iff v).mp ⟨response, hb⟩⟩ hbad
      | error e =>
        simp [reviewController.getReview, hout, hb, responses, reviewController.getReviewCatch,
          reviewNotFound]
    | rejects e =>
      simp [reviewController.getReview, hout, responses, reviewController.getReviewCatch,
        reviewNotFound]
    | throws e =>
      simp [reviewController.getReview, hout, responses, reviewController.getReviewCatch,
        reviewNotFound]
    | pending => exact absurd hout hpend
  · intro r hr
    cases hout : connection.getReview (req.param "addr") (req.param "reviewIndex") with
    | resolves v =>
      cases hb : reviewController.buildResponse v <;>
        simp [reviewController.getReview, hout, hb, responses, reviewController.getReviewCatch,
          defaultStatus] at hr <;> simp [hr]
    | rejects e =>
      simp [reviewController.getReview, hout, responses, reviewController.getReviewCatch] at hr
      simp [hr]
    | throws e =>
      simp [reviewController.getReview, hout, responses, reviewController.getReviewCatch] at hr
      simp [hr]
    | pending => simp [reviewController.getReview, hout, responses] at hr
  · cases hout : connection.getReview (req.param "addr") (req.param "reviewIndex") with
    | resolves v =>
      cases hb : reviewController.buildResponse v <;>
        simp [reviewController.getReview, hout, hb, responses, reviewController.getReviewCatch]
    | rejects e =>
      simp [reviewController.getReview, hout, responses, reviewController.getReviewCatch]
    | throws e =>
      simp [reviewController.getReview, hout, responses, reviewController.getReviewCatch]
    | pending => simp [reviewController.getReview, hout, responses]
  · intro items hlen
    have h4 : items.getD 4 .undefined = .undefined := by
      simp [List.getD_eq_getElem?_getD, List.getElem?_eq_none (by omega : items.length ≤ 4)]
    rw [toNumberReturns_arr, h4]
    rfl
  · intro items hx
    obtain ⟨e, he⟩ := hno _ hx
    rw [toNumberReturns_arr, he]
  · intro items hx
    obtain ⟨e, he⟩ := hno _ hx
    rw [toNumberReturns_arr, he]

/-- A connection that resolves to `undefined` (claim C10) is answered 404. -/
theorem C10_getReview_status_decided_by_toNumber_witness :
    responses (reviewController.getReview
      ⟨fun _ _ => .resolves .undefined, fun _ _ => .pending⟩ scenarioReq) =
        [⟨404, .json, reviewNotFound⟩] :=
  (C10_getReview_status_decided_by_toNumber
    ⟨fun _ _ => .resolves .undefined, fun _ _ => .pending⟩ scenarioReq).2.1
    (by simp) (by simp [toNumberReturns, getIndex, bind, Except.bind])

/-! ## The write path: `addReview` -/

/-- Claim C3, as stated, fails: the connection resolves to the result object
`tx: (toString: 1)`, the template literal of line 33 throws on converting `tx`,
and the handler answers 500 with the `TypeError`, not 200 with the result. -/
theorem C3_counterexample_unprintable_tx :
    unprintableTxConnection.addReview (scenarioPost.param "addr") scenarioPost.body =
        .resolves (.obj [("tx", .obj [("toString", .num 1)])]) ∧
      responses (reviewController.addReview unprintableTxConnection scenarioPost) =
        [⟨500, .json, .obj [("error", cannotConvert)]⟩] ∧
      ¬ responses (reviewController.addReview unprintableTxConnection scenarioPost) =
        [⟨200, .send, .obj [("tx", .obj [("toString", .num 1)])]⟩] := by
  have h : responses (reviewController.addReview unprintableTxConnection scenarioPost) =
      [⟨500, .json, .obj [("error", cannotConvert)]⟩] := rfl
  refine ⟨rfl, h, ?_⟩
  rw [h]
  simp

/-- Claim C3, amended: when the connection's `addReview` resolves to a result
object whose `tx` converts to a string, the handler sends exactly one response,
status 200 with that object itself as the body, so the `tx` of the body is the
`tx` the connection produced; when the conversion of `tx` throws `e`, the one
response is 500 with the JSON body `error: e`. -/
theorem C3_addReview_success_returns_result (connection : Connection) (req : Req)
    (fields : List (String × JsVal))
    (hconn : connection.addReview (req.param "addr") req.body = .resolves (.obj fields)) :
    (∀ text, toStr ((fields.lookup "tx").getD .undefined) = .ok text →
        responses (reviewController.addReview connection req) = [⟨200, .send, .obj fields⟩] ∧
        ∀ r ∈ responses (reviewController.addReview connection req),
          getField r.body "tx" = getField (.obj fields) "tx") ∧
      (∀ e, toStr ((fields.lookup "tx").getD .undefined) = .error e →
        responses (reviewController.addReview connection req) =
          [⟨500, .json, .obj [("error", e)]⟩]) := by
  refine ⟨?_, ?_⟩
  · intro text htx
    have h : responses (reviewController.addReview connection req) =
        [⟨200, .send, .obj fields⟩] := by
      simp [reviewController.addReview, hconn, getField, htx, responses, bind, Except.bind]
    refine ⟨h, ?_⟩
    intro r hr
    rw [h] at hr
    simp at hr
    rw [hr]
  · intro e htx
    simp [reviewController.addReview, hconn, getField, htx, responses, bind, Except.bind]

/-- A resolved write of claim C3 with a string `tx` answers 200 with the
transaction result. -/
theorem C3_addReview_success_returns_result_witness :
    responses (reviewController.addReview scenarioConnection scenarioPost) =
      [⟨200, .send, .obj [("tx", .str "0x9f3c")]⟩] :=
  ((C3_addReview_success_returns_result scenarioConnection scenarioPost
    [("tx", .str "0x9f3c")] rfl).1 "0x9f3c" rfl).1

/-- Claim C4: when the connection's `addReview` rejects with or throws a value
`e`, the handler sends exactly one response, status 500 with the JSON body
`error: e` carrying `e` unchanged, and no response with status 200. -/
theorem C4_addReview_failure_is_500 (connection : Connection) (req : Req) (e : JsVal)
    (hfail : connection.addReview (req.param "addr") req.body = .rejects e ∨
      connection.addReview (req.param "addr") req.body = .throws e) :
    responses (reviewController.addReview connection req) =
        [⟨500, .json, .obj [("error", e)]⟩] ∧
      ∀ r ∈ responses (reviewController.addReview connection req), r.status ≠ 200 := by
  have h : responses (reviewController.addReview connection req) =
      [⟨500, .json, .obj [("error", e)]⟩] := by
    rcases hfail with h | h <;> simp [reviewController.addReview, h, responses]
  refine ⟨h, ?_⟩
  intro r hr
  rw [h] at hr
  simp at hr
  simp [hr]

/-- A rejected write of claim C4 answers 500 with the error. -/
theorem C4_addReview_failure_is_500_witness :
    responses (reviewController.addReview (rejectingConnection (.str "out of gas"))
      scenarioPost) = [⟨500, .json, .obj [("error", .str "out of gas")]⟩] :=
  (C4_addReview_failure_is_500 (rejectingConnection (.str "out of gas")) scenarioPost
    (.str "out of gas") (Or.inl rfl)).1

/-- Claim C8: whatever the request and however the call ends, `addReview` calls
the connection's `addReview` exactly once, with `req.params.addr` as the author
and `req.body` as the review, both as they arrived. -/
theorem C8_addReview_forwards_body (connection : Connection) (req : Req) :
    addReviewCalls (reviewController.addReview connection req) =
      [(req.param "addr", req.body)] := by
  cases hout : connection.addReview (req.param "addr") req.body with
  | resolves result =>
    cases hf : getField result "tx" >>= toStr <;>
      simp [reviewController.addReview, hout, hf, addReviewCalls]
  | rejects e => simp [reviewController.addReview, hout, addReviewCalls]
  | throws e => simp [reviewController.addReview, hout, addReviewCalls]
  | pending => simp [reviewController.addReview, hout, addReviewCalls]

/-! ## The account lookup: `getAccount` -/

/-- Claim C5, as stated, fails: the lookup resolves to the record
`toString: "x"`, the template literal of line 12 throws inside the `then`
callback, and the chained `catch` answers 500 with the `TypeError`, not 200
with the record. -/
theorem C5_counterexample_unprintable_scholar :
    truthy unprintableScholar = true ∧
      responses (accountController.getAccount ⟨fun _ => .resolves unprintableScholar⟩
        scenarioAccountReq) = [⟨500, .send, cannotConvert⟩] ∧
      ¬ responses (accountController.getAccount ⟨fun _ => .resolves unprintableScholar⟩
        scenarioAccountReq) = [⟨200, .json, unprintableScholar⟩] := by
  have h : responses (accountController.getAccount ⟨fun _ => .resolves unprintableScholar⟩
      scenarioAccountReq) = [⟨500, .send, cannotConvert⟩] := rfl
  refine ⟨rfl, h, ?_⟩
  rw [h]
  simp

/-- Claim C5, amended: `getAccount` looks the scholar up once, by
`req.params.address`, and sends at most one response: 200 with the record as
JSON when the lookup resolves to a record (a truthy value) that converts to a
string, 404 with the text "No scholar found" when it resolves to `null`, 500
with the error itself when it rejects, and 500 with the thrown error when the
conversion of the resolved value throws.  A record without an own `toString`
property is truthy and converts. -/
theorem C5_getAccount_three_responses (Scholar : ScholarModel) (req : Req) :
    findByIdCalls (accountController.getAccount Scholar req) = [req.param "address"] ∧
      (∀ scholar text, Scholar.findById (req.param "address") = .resolves scholar →
        truthy scholar = true → toStr scholar = .ok text →
        responses (accountController.getAccount Scholar req) = [⟨200, .json, scholar⟩]) ∧
      (Scholar.findById (req.param "address") = .resolves .null →
        responses (accountController.getAccount Scholar req) =
          [⟨404, .send, .str "No scholar found"⟩]) ∧
      (∀ err, Scholar.findById (req.param "address") = .rejects err →
        responses (accountController.getAccount Scholar req) = [⟨500, .send, err⟩]) ∧
      (∀ scholar err, Scholar.findById (req.param "address") = .resolves scholar →
        toStr scholar = .error err →
        responses (accountController.getAccount Scholar req) = [⟨500, .send, err⟩]) ∧
      (responses (accountController.getAccount Scholar req)).length ≤ 1 ∧
      (∀ fields, fields.lookup "toString" = none →
        truthy (.obj fields) = true ∧ toStr (.obj fields) = .ok "[object Object]") := by
  refine ⟨?_, ?_, ?_, ?_, ?_, ?_, ?_⟩
  · cases hout : Scholar.findById (req.param "address") with
    | resolves scholar =>
      cases hs : toStr scholar with
      | error e => simp [accountController.getAccount, hout, hs, findByIdCalls]
      | ok text =>
        by_cases ht : truthy scholar = true <;>
          simp [accountController.getAccount, hout, hs, ht, findByIdCalls]
    | rejects e => simp [accountController.getAccount, hout, findByIdCalls]
    | throws e => simp [accountController.getAccount, hout, findByIdCalls]
    | pending => simp [accountController.getAccount, hout, findByIdCalls]
  · intro scholar text hout ht hs
    simp [accountController.getAccount, hout, ht, hs, responses]
  · intro hout
    simp [accountController.getAccount, hout, truthy, toStr, responses]
  · intro err hout
    simp [accountController.getAccount, hout, responses]
  · intro scholar err hout hs
    simp [accountController.getAccount, hout, hs, responses]
  · cases hout : Scholar.findById (req.param "address") with
    | resolves scholar =>
      cases hs : toStr scholar with
      | error e => simp [accountController.getAccount, hout, hs, responses]
      | ok text =>
        by_cases ht : truthy scholar = true <;>
          simp [accountController.getAccount, hout, hs, ht, responses]
    | rejects e => simp [accountController.getAccount, hout, responses]
    | throws e => simp [accountController.getAccount, hout, responses]
    | pending => simp [accountController.getAccount, hout, responses]
  · intro fields hf
    exact ⟨rfl, by simp [toStr, hf]⟩

/-- A found scholar of claim C5 is answered 200 with the record. -/
theorem C5_getAccount_three_responses_witness :
    responses (accountController.getAccount ⟨fun _ => .resolves scenarioScholar⟩
      scenarioAccountReq) = [⟨200, .json, scenarioScholar⟩] :=
  (C5_getAccount_three_responses ⟨fun _ => .resolves scenarioScholar⟩ scenarioAccountReq).2.1
    scenarioScholar "[object Object]" rfl rfl rfl

/-! ## The submission form -/

open AddReviewContainer

/-- Claim C6: `handleDateChange` yields a state whose review has the new date
as `timestamp` and every other property as before, leaves `isLoading`,
`account` and the requests in flight unchanged, and writes to a fresh object:
every object of the old heap, the previous review among them, is as it was. -/
theorem C6_handleDateChange_replaces_timestamp_only (c : Component) (date : JsVal)
    (hrev : c.review < c.heap.length) :
    (deref (handleDateChange c date).heap (handleDateChange c date).review).lookup "timestamp" =
        some date ∧
      (∀ name, name ≠ "timestamp" →
        (deref (handleDateChange c date).heap (handleDateChange c date).review).lookup name =
          (deref c.heap c.review).lookup name) ∧
      (handleDateChange c date).isLoading = c.isLoading ∧
      (handleDateChange c date).account = c.account ∧
      (handleDateChange c date).inFlight = c.inFlight ∧
      (∀ ref, ref < c.heap.length → deref (handleDateChange c date).heap ref = deref c.heap ref) ∧
      (handleDateChange c date).review ≠ c.review := by
  have hnew : deref (handleDateChange c date).heap (handleDateChange c date).review =
      setProp (deref c.heap c.review) "timestamp" date := by
    simp [handleDateChange, alloc, writeProp, deref, List.getD_eq_getElem?_getD]
  refine ⟨?_, ?_, rfl, rfl, rfl, ?_, ?_⟩
  · rw [hnew]
    exact lookup_setProp_same _ _ _
  · intro name hne
    rw [hnew]
    exact lookup_setProp_other _ _ _ _ hne
  · intro ref href
    simp [handleDateChange, alloc, writeProp, deref, List.getD_eq_getElem?_getD,
      List.getElem?_set, List.getElem?_append_left href, Nat.ne_of_gt href]
  · simp only [handleDateChange, alloc]
    exact Nat.ne_of_gt hrev

/-- The scenario of claim C6: changing the date of the initial review from `T0`
to `T1` leaves the previous review object, at reference 0, with `T0`. -/
theorem C6_handleDateChange_replaces_timestamp_only_witness :
    (deref (handleDateChange (constructor (.num 1700000000)) (.num 1800000000)).heap 0).lookup
      "timestamp" = some (.num 1700000000) := by
  rw [(C6_handleDateChange_replaces_timestamp_only (constructor (.num 1700000000))
    (.num 1800000000) (by decide)).2.2.2.2.2.1 0 (by decide)]
  rfl

/-- Claim C7, evaluated: after a submit the loading flag is true, and it is
false again once the request resolves; once the request rejects the flag is
still true, although no request is in flight any more. -/
theorem C7_loading_stays_true_after_rejection :
    (handleSubmit (constructor (.num 1700000000)) (.obj [("journalId", .str "J")])).isLoading
        = true ∧
      (settle (handleSubmit (constructor (.num 1700000000)) (.obj [("journalId", .str "J")])) 0
        (.ok (.obj [("tx", .str "0x9f3c")]))).isLoading = false ∧
      (settle (handleSubmit (constructor (.num 1700000000)) (.obj [("journalId", .str "J")])) 0
        (.error (.str "Failed to fetch"))).isLoading = true ∧
      (settle (handleSubmit (constructor (.num 1700000000)) (.obj [("journalId", .str "J")])) 0
        (.error (.str "Failed to fetch"))).inFlight = [] :=
  ⟨rfl, rfl, rfl, rfl⟩

/-- Claim C9: `handleSubmit` issues a request with the data it is given in every
state, loading or not; two submits in a row, the second in the loading state
the first left, leave both requests in flight. -/
theorem C9_submit_is_not_guarded (c : Component) (now first second : JsVal) :
    (handleSubmit c first).inFlight = c.inFlight ++ [first] ∧
      (handleSubmit c first).isLoading = true ∧
      (handleSubmit (handleSubmit c first) second).inFlight = c.inFlight ++ [first, second] ∧
      (handleSubmit (handleSubmit (constructor now) first) second).inFlight = [first, second] := by
  refine ⟨rfl, rfl, ?_, rfl⟩
  simp [handleSubmit]

end PeerReview
